import Mathlib

/-!
Verification of the student portal client (`studente_ai_manager`).

This file shallowly embeds the client-side logic the specification talks
about:

* `StudentExamRoom.tsx`: the answers map (`handleSelectOption`), the
  question list produced by `initExam` (flatten, filter deleted, sort),
  and the scoring function `calculateScore`;
* `StudentDashboard` (`src/unnamed/part_000`): `getTestStatus` and the
  four dashboard buckets (active / upcoming / completed / expired);
* the application shell (`src/unnamed/part_002`): the post-login
  session-resolution sequence `handleLoginSuccess`.

JavaScript records (`Record<string, string>`) are embedded as functions
`String → Option String` (absent key = `undefined` = `none`); JS dates are
embedded by their epoch-millisecond values as integers; `Math.round` over
the small non-negative ratios involved is embedded as exact rational
round-half-up.
-/

/-- A `question_options` row as selected by `initExam`:
`question_options(id, content, key, is_correct)`. -/
structure QuestionOption where
  id : String
  content : String
  key : String
  is_correct : Bool
  deriving DecidableEq, Repr

/-- The exam question object built by `initExam`'s map step:
the spread of the selected `questions` columns
(`id, content, difficulty, image_url, deleted`), plus `weight` taken from
the `test_questions` row, plus the (re-sorted) `question_options`.
Note that `order_index` is selected on `test_questions` but is NOT copied
onto this object by `{...tq.questions, weight: tq.weight, ...}`. -/
structure Question where
  id : String
  content : String
  difficulty : String
  image_url : String
  deleted : Bool
  weight : Int
  question_options : List QuestionOption
  deriving DecidableEq, Repr

/-- The `tests` row held in component state; `questions` is the optional
list attached by `initExam` (`test.questions` may be `undefined`). -/
structure Test where
  id : String
  title : String
  questions : Option (List Question)
  deriving DecidableEq, Repr

/-- The `answers` state: `Record<string, string>` mapping a question id to
the selected option id; an absent key is `none`. -/
def AnswersMap : Type := String → Option String

/-- `handleSelectOption(questionId, optionId)`:
`setAnswers(prev => ({ ...prev, [questionId]: optionId }))`. -/
def handleSelectOption (prev : AnswersMap) (questionId optionId : String) :
    AnswersMap :=
  fun k => if k = questionId then some optionId else prev k

/-- JS `s || d` for `s : string | undefined` and a fallback string `d`:
the empty string is falsy, so it also falls back to `d`. -/
def jsOrDefault (s : Option String) (d : String) : String :=
  match s with
  | some v => if v = "" then d else v
  | none => d

/-- JS `s || null` for `s : string | undefined`: both `undefined` and the
(falsy) empty string become `null`. -/
def jsOrNull (s : Option String) : Option String :=
  match s with
  | some v => if v = "" then none else some v
  | none => none

/-- One element of `gradedAnswers` as built inside `calculateScore`. -/
structure GradedAnswer where
  number : Nat
  questionId : String
  questionContent : String
  selectedOption : String
  selectedOptionId : Option String
  correctOption : String
  correctOptionId : Option String
  isCorrect : Bool
  deriving DecidableEq, Repr

/-- The record returned by `calculateScore`. -/
structure ScoreResult where
  score : Int
  correctCount : Nat
  errorCount : Nat
  gradedAnswers : List GradedAnswer
  deriving DecidableEq, Repr

/-- JS `Math.round` on a (non-negative) rational: round half away from
zero, which for non-negative arguments is `⌊x + 1/2⌋`. -/
def mathRound (x : ℚ) : Int := ⌊x + 1 / 2⌋

/-- The body of `calculateScore`'s map callback for one question `q` at
index `idx`:
`selectedOptId = answers[q.id]`;
`correctOpt = q.question_options?.find(o => o.is_correct)`;
`selectedOpt = q.question_options?.find(o => o.id === selectedOptId)`;
`isCorrect = selectedOptId != null && selectedOptId === correctOpt?.id`. -/
def gradeQuestion (answers : AnswersMap) (idx : Nat) (q : Question) :
    GradedAnswer :=
  let selectedOptId := answers q.id
  let correctOpt := q.question_options.find? (fun o => o.is_correct)
  let selectedOpt := q.question_options.find? (fun o => some o.id = selectedOptId)
  let isCorrect :=
    match selectedOptId, correctOpt with
    | some s, some c => s = c.id
    | _, _ => false
  { number := idx + 1
    questionId := q.id
    questionContent := q.content
    selectedOption := jsOrDefault (selectedOpt.map (fun o => o.key)) "-"
    selectedOptionId := jsOrNull selectedOptId
    correctOption := jsOrDefault (correctOpt.map (fun o => o.key)) "?"
    correctOptionId := jsOrNull (correctOpt.map (fun o => o.id))
    isCorrect := isCorrect }

/-- `test.questions.map((q, idx) => ...)`: the indexed map producing
`gradedAnswers`, with `idx` threaded explicitly. -/
def gradeList (answers : AnswersMap) (idx : Nat) : List Question → List GradedAnswer
  | [] => []
  | q :: qs => gradeQuestion answers idx q :: gradeList answers (idx + 1) qs

/-- `calculateScore`: returns zeros when `!test || !test.questions`;
otherwise grades every question, counts the correct ones, sets
`errorCount = totalQuestions - correctCount` and
`score = totalQuestions > 0 ? Math.round((correctCount / totalQuestions) * 100) : 0`. -/
def calculateScore (test : Option Test) (answers : AnswersMap) : ScoreResult :=
  match test with
  | none => { score := 0, correctCount := 0, errorCount := 0, gradedAnswers := [] }
  | some t =>
    match t.questions with
    | none => { score := 0, correctCount := 0, errorCount := 0, gradedAnswers := [] }
    | some qs =>
      let totalQuestions := qs.length
      let gradedAnswers := gradeList answers 0 qs
      let correctCount := (gradedAnswers.filter (fun a => a.isCorrect)).length
      let errorCount := totalQuestions - correctCount
      let score : Int :=
        if totalQuestions > 0 then
          mathRound ((correctCount : ℚ) / (totalQuestions : ℚ) * 100)
        else 0
      { score := score, correctCount := correctCount, errorCount := errorCount,
        gradedAnswers := gradedAnswers }

/-! ## `initExam`: flatten, filter deleted, sort (`StudentExamRoom.tsx` 57-66) -/

/-- A `questions` row as selected inside `test_questions`:
`questions(id, content, difficulty, image_url, deleted, question_options(...))`.
It carries no `order_index` column. -/
structure RawQuestion where
  id : String
  content : String
  difficulty : String
  image_url : String
  deleted : Bool
  question_options : List QuestionOption
  deriving DecidableEq, Repr

/-- A `test_questions` row as selected by `initExam`:
`test_questions(weight, order_index, questions(...))`. -/
structure TestQuestionRow where
  weight : Int
  order_index : Int
  questions : RawQuestion
  deriving DecidableEq, Repr

/-- `question_options.sort((a, b) => (a.key || '').localeCompare(b.key || ''))`:
a stable ascending sort of the options by `key` (default-locale
`localeCompare` embedded as string order). -/
def sortOptionsByKey (opts : List QuestionOption) : List QuestionOption :=
  opts.insertionSort (fun a b => a.key ≤ b.key)

/-- `.sort((a, b) => a.order_index - b.order_index)` applied to the mapped
exam questions. The mapped objects carry no `order_index` property (the
spread `{...tq.questions, ...}` copies only the selected `questions`
columns), so for every pair the comparator evaluates
`undefined - undefined = NaN`; ECMAScript's `CompareArrayElements` treats a
NaN comparator result as `+0`, and the (required-stable) sort under an
all-zero comparator returns the array unchanged. -/
def sortByAbsentOrderIndex (l : List Question) : List Question := l

/-- The question-list computation in `initExam`:
map each `test_questions` row to the spread question object (with `weight`
and re-sorted options), filter out `deleted`, then apply the
`order_index` sort (which is the identity, see `sortByAbsentOrderIndex`). -/
def initExamQuestions (rows : List TestQuestionRow) : List Question :=
  sortByAbsentOrderIndex
    ((rows.map (fun tq =>
      { id := tq.questions.id
        content := tq.questions.content
        difficulty := tq.questions.difficulty
        image_url := tq.questions.image_url
        deleted := tq.questions.deleted
        weight := tq.weight
        question_options := sortOptionsByKey tq.questions.question_options
        : Question })).filter (fun q => !q.deleted))

/-! ## Student dashboard (`src/unnamed/part_000`) -/

/-- A `test_releases` row; `start_time`/`end_time` are embedded by their
epoch-millisecond values (`new Date(r.start_time).getTime()`). -/
structure TestRelease where
  id : String
  start_time : Int
  end_time : Int
  deriving DecidableEq, Repr

/-- A `test_results` row as used by the dashboard status check. -/
structure TestResultRow where
  test_release_id : String
  deriving DecidableEq, Repr

/-- The four values `getTestStatus` can return. -/
inductive TestStatus where
  | completed
  | upcoming
  | expired
  | active
  deriving DecidableEq, Repr

/-- `getTestStatus(r)`: `completed` when some fetched result has this
release's id, else `upcoming` when `now < start`, else `expired` when
`now > end`, else `active`. `now` is the current epoch time in
milliseconds. -/
def getTestStatus (now : Int) (results : List TestResultRow) (r : TestRelease) :
    TestStatus :=
  if results.any (fun res => res.test_release_id == r.id) then .completed
  else if now < r.start_time then .upcoming
  else if now > r.end_time then .expired
  else .active

/-- `releases.filter(r => getTestStatus(r) === 'active')`. -/
def activeTests (now : Int) (results : List TestResultRow)
    (releases : List TestRelease) : List TestRelease :=
  releases.filter (fun r => getTestStatus now results r = .active)

/-- `releases.filter(r => getTestStatus(r) === 'upcoming').sort(...)`:
the upcoming releases, sorted ascending by start time. -/
def upcomingTests (now : Int) (results : List TestResultRow)
    (releases : List TestRelease) : List TestRelease :=
  (releases.filter (fun r => getTestStatus now results r = .upcoming)).insertionSort
    (fun a b => a.start_time ≤ b.start_time)

/-- `releases.filter(r => getTestStatus(r) === 'completed')`. -/
def completedTests (now : Int) (results : List TestResultRow)
    (releases : List TestRelease) : List TestRelease :=
  releases.filter (fun r => getTestStatus now results r = .completed)

/-- `releases.filter(r => getTestStatus(r) === 'expired')`. -/
def expiredTests (now : Int) (results : List TestResultRow)
    (releases : List TestRelease) : List TestRelease :=
  releases.filter (fun r => getTestStatus now results r = .expired)

/-! ## Application shell: `handleLoginSuccess` (`src/unnamed/part_002`) -/

/-- The UI state touched by the login sequence. `session` holds the
authenticated user's id; `loginProcessing` is `loginProcessingRef.current`. -/
structure AuthState where
  session : Option String
  userRole : String
  authLoading : Bool
  loadingMessage : String
  loginProcessing : Bool
  deriving DecidableEq, Repr

/-- The environment of one run of `handleLoginSuccess`:
whether a client is configured; the outcome of the i-th
`client.auth.getSession()` call (`Except.error` = the awaited call
rejects, `some u` = a session for user `u`, `none` = no session yet);
the role `fetchRole` would resolve for a user (`none` = it returns
leaving the role unchanged); and how long `fetchRole` takes in
milliseconds (for the race against the 5000 ms timeout). -/
structure AuthEnv where
  hasClient : Bool
  getSession : Nat → Except Unit (Option String)
  fetchRoleResult : String → Option String
  roleFetchMillis : Nat

/-- The `for (let i = 0; i < 3; i++)` polling loop, started at call index
`i` with `r` iterations left: each iteration awaits `getSession` (a
rejection propagates to the enclosing catch), stops with the session as
soon as one has a user, and gives up with `none` after the last
iteration. -/
def pollFrom (get : Nat → Except Unit (Option String)) :
    Nat → Nat → Except Unit (Option String)
  | _, 0 => .ok none
  | i, r + 1 =>
    match get i with
    | .error e => .error e
    | .ok (some u) => .ok (some u)
    | .ok none => pollFrom get (i + 1) r

/-- How many `getSession` calls the polling loop performs, starting at
call index `i` with `r` iterations left. -/
def pollCallsFrom (get : Nat → Except Unit (Option String)) :
    Nat → Nat → Nat
  | _, 0 => 0
  | i, r + 1 =>
    match get i with
    | .error _ => 1
    | .ok (some _) => 1
    | .ok none => 1 + pollCallsFrom get (i + 1) r

/-- The state update `fetchRole(uid)` performs when it completes: set the
resolved role, or leave the state unchanged when the profile lookup
fails. -/
def applyFetchRole (env : AuthEnv) (u : String) (s : AuthState) : AuthState :=
  match env.fetchRoleResult u with
  | some role => { s with userRole := role }
  | none => s

/-- `await Promise.race([fetchRolePromise, timeoutPromise])` with a
5000 ms timeout: `fetchRole`'s update lands only if it finishes within
5000 ms; otherwise the timeout resolves first and the state is
unchanged. -/
def raceFetchRole (env : AuthEnv) (u : String) (s : AuthState) : AuthState :=
  if env.roleFetchMillis ≤ 5000 then applyFetchRole env u s else s

/-- `handleLoginSuccess`: guarded by `loginProcessingRef`; sets
`authLoading`; with a client it polls `getSession` up to 3 times, and on
a session races `fetchRole` against the 5000 ms timeout; every
terminating path (session obtained, no session after the polls, an
awaited call rejecting, or no client) ends by clearing `authLoading` and
the guard. -/
def handleLoginSuccess (env : AuthEnv) (s : AuthState) : AuthState :=
  if s.loginProcessing then s
  else
    let s1 := { s with loginProcessing := true, authLoading := true,
                       loadingMessage := "Verificando Credenciais..." }
    if env.hasClient then
      match pollFrom env.getSession 0 3 with
      | .error _ => { s1 with authLoading := false, loginProcessing := false }
      | .ok none => { s1 with authLoading := false, loginProcessing := false }
      | .ok (some u) =>
        let s2 := { s1 with session := some u,
                            loadingMessage := "Carregando Perfil..." }
        let s3 := raceFetchRole env u s2
        { s3 with loadingMessage := "Preparando Ambiente...",
                  authLoading := false, loginProcessing := false }
    else { s1 with authLoading := false, loginProcessing := false }

/-! ## Helper lemmas about `calculateScore` -/

/-- The per-question correctness condition of `calculateScore`: the
student's recorded option id exists and equals the id of the first option
marked `is_correct`. -/
def answeredCorrectly (answers : AnswersMap) (q : Question) : Bool :=
  match answers q.id, q.question_options.find? (fun o => o.is_correct) with
  | some s, some c => s = c.id
  | _, _ => false

lemma gradeQuestion_isCorrect (answers : AnswersMap) (idx : Nat) (q : Question) :
    (gradeQuestion answers idx q).isCorrect = answeredCorrectly answers q := rfl

lemma answeredCorrectly_iff (answers : AnswersMap) (q : Question) :
    answeredCorrectly answers q = true ↔
      ∃ s, answers q.id = some s ∧
        ∃ c, q.question_options.find? (fun o => o.is_correct) = some c ∧ c.id = s := by
  cases h1 : answers q.id <;>
    cases h2 : q.question_options.find? (fun o => o.is_correct) <;>
      simp [answeredCorrectly, h1, h2, eq_comm]

lemma gradeList_length (answers : AnswersMap) (qs : List Question) :
    ∀ i, (gradeList answers i qs).length = qs.length := by
  induction qs with
  | nil => intro i; rfl
  | cons q qs ih => intro i; simp [gradeList, ih]

lemma gradeList_count (answers : AnswersMap) (qs : List Question) :
    ∀ i, ((gradeList answers i qs).filter (fun a => a.isCorrect)).length =
      qs.countP (fun q => answeredCorrectly answers q) := by
  induction qs with
  | nil => intro i; rfl
  | cons q qs ih =>
    intro i
    simp only [gradeList, List.filter_cons, List.countP_cons,
      gradeQuestion_isCorrect, ih]
    rcases Bool.eq_false_or_eq_true (answeredCorrectly answers q) with h | h <;>
      simp [h, ih]

lemma gradeList_getElem? (answers : AnswersMap) (qs : List Question) :
    ∀ i j, (gradeList answers i qs)[j]? =
      (qs[j]?).map (fun q => gradeQuestion answers (i + j) q) := by
  induction qs with
  | nil => intro i j; rfl
  | cons q qs ih =>
    intro i j
    cases j with
    | zero => simp [gradeList]
    | succ j =>
      simp only [gradeList, List.getElem?_cons_succ, ih (i + 1) j]
      have : i + 1 + j = i + (j + 1) := by omega
      rw [this]

lemma mem_gradeList (answers : AnswersMap) (qs : List Question) :
    ∀ i ga, ga ∈ gradeList answers i qs →
      ∃ q ∈ qs, ∃ j, ga = gradeQuestion answers j q := by
  induction qs with
  | nil => intro i ga h; simp [gradeList] at h
  | cons q qs ih =>
    intro i ga h
    simp only [gradeList, List.mem_cons] at h
    rcases h with h | h
    · exact ⟨q, List.mem_cons_self q qs, i, h⟩
    · obtain ⟨q', hq', j, hj⟩ := ih (i + 1) ga h
      exact ⟨q', List.mem_cons_of_mem q hq', j, hj⟩

lemma calculateScore_eq (t : Test) (answers : AnswersMap) (qs : List Question)
    (hq : t.questions = some qs) :
    calculateScore (some t) answers =
      { score := if qs.length > 0 then
          mathRound ((((gradeList answers 0 qs).filter
            (fun a => a.isCorrect)).length : ℚ) / (qs.length : ℚ) * 100) else 0
        correctCount := ((gradeList answers 0 qs).filter (fun a => a.isCorrect)).length
        errorCount := qs.length -
          ((gradeList answers 0 qs).filter (fun a => a.isCorrect)).length
        gradedAnswers := gradeList answers 0 qs } := by
  simp [calculateScore, hq]

/-! ## Concrete fixtures used by the witness theorems -/

/-- Option A of the first fixture question; it is the correct one. -/
def optA1 : QuestionOption :=
  { id := "oA1", content := "Alpha", key := "A", is_correct := true }

/-- Option B of the first fixture question. -/
def optA2 : QuestionOption :=
  { id := "oA2", content := "Beta", key := "B", is_correct := false }

/-- Option A of the second fixture question. -/
def optB1 : QuestionOption :=
  { id := "oB1", content := "Gamma", key := "A", is_correct := false }

/-- Option B of the second fixture question; it is the correct one. -/
def optB2 : QuestionOption :=
  { id := "oB2", content := "Delta", key := "B", is_correct := true }

/-- First fixture question. -/
def qOne : Question :=
  { id := "q1", content := "first", difficulty := "easy", image_url := "",
    deleted := false, weight := 1, question_options := [optA1, optA2] }

/-- Second fixture question. -/
def qTwo : Question :=
  { id := "q2", content := "second", difficulty := "hard", image_url := "",
    deleted := false, weight := 1, question_options := [optB1, optB2] }

/-- Fixture test with the two questions loaded. -/
def examTest : Test :=
  { id := "t1", title := "Fixture", questions := some [qOne, qTwo] }

/-- Fixture answers: question 1 answered with its correct option,
question 2 unanswered. -/
def examAnswers : AnswersMap :=
  fun k => if k = "q1" then some "oA1" else none

/-! ## Claims about `calculateScore` and `handleSelectOption` -/

/-- Claim C1: `calculateScore` counts a question as correct exactly when
the student's selected option id is non-null and equals the id of the
question's option marked `is_correct`, and returns
`score = Math.round((correctCount / totalQuestions) * 100)` with
`score = 0` when the test has no questions. -/
theorem calculateScore_spec (t : Test) (answers : AnswersMap)
    (qs : List Question) (hq : t.questions = some qs) :
    (calculateScore (some t) answers).correctCount =
      qs.countP (fun q => answeredCorrectly answers q)
    ∧ (∀ q : Question, answeredCorrectly answers q = true ↔
        ∃ s, answers q.id = some s ∧
          ∃ c, q.question_options.find? (fun o => o.is_correct) = some c ∧
            c.id = s)
    ∧ (calculateScore (some t) answers).score =
        (if qs.length = 0 then 0 else
          mathRound (((calculateScore (some t) answers).correctCount : ℚ) /
            (qs.length : ℚ) * 100)) := by
  rw [calculateScore_eq t answers qs hq]
  refine ⟨gradeList_count answers qs 0, fun q => answeredCorrectly_iff answers q, ?_⟩
  rcases Nat.eq_zero_or_pos qs.length with h0 | h0
  · simp [h0]
  · simp [h0, Nat.pos_iff_ne_zero.mp h0]

/-- Witness for C1 at the fixture exam: one of two questions is answered
correctly, so `correctCount = countP` and the score follows the rounding
formula. -/
theorem calculateScore_spec_witness :
    (calculateScore (some examTest) examAnswers).correctCount =
      List.countP (fun q => answeredCorrectly examAnswers q) [qOne, qTwo]
    ∧ (calculateScore (some examTest) examAnswers).score =
        (if ([qOne, qTwo] : List Question).length = 0 then 0 else
          mathRound (((calculateScore (some examTest) examAnswers).correctCount : ℚ) /
            (([qOne, qTwo] : List Question).length : ℚ) * 100)) :=
  ⟨(calculateScore_spec examTest examAnswers [qOne, qTwo] rfl).1,
   (calculateScore_spec examTest examAnswers [qOne, qTwo] rfl).2.2⟩

/-- Claim C2: `correctCount + errorCount = totalQuestions` and
`correctCount ≤ totalQuestions`: every question contributes exactly once
to one of the two counters. -/
theorem calculateScore_partition (t : Test) (answers : AnswersMap)
    (qs : List Question) (hq : t.questions = some qs) :
    (calculateScore (some t) answers).correctCount +
        (calculateScore (some t) answers).errorCount = qs.length
    ∧ (calculateScore (some t) answers).correctCount ≤ qs.length := by
  rw [calculateScore_eq t answers qs hq]
  have hle : ((gradeList answers 0 qs).filter (fun a => a.isCorrect)).length ≤
      qs.length := by
    calc ((gradeList answers 0 qs).filter (fun a => a.isCorrect)).length
        ≤ (gradeList answers 0 qs).length := List.length_filter_le _ _
      _ = qs.length := gradeList_length answers qs 0
  exact ⟨by simp; omega, hle⟩

/-- Witness for C2 at the fixture exam. -/
theorem calculateScore_partition_witness :
    (calculateScore (some examTest) examAnswers).correctCount +
        (calculateScore (some examTest) examAnswers).errorCount =
      ([qOne, qTwo] : List Question).length
    ∧ (calculateScore (some examTest) examAnswers).correctCount ≤
        ([qOne, qTwo] : List Question).length :=
  calculateScore_partition examTest examAnswers [qOne, qTwo] rfl

/-- Claim C3: `calculateScore` is deterministic: equal inputs give the
same score, correct and error counts, and the same graded answers
element by element. -/
theorem calculateScore_deterministic (t1 t2 : Option Test)
    (a1 a2 : AnswersMap) (ht : t1 = t2) (ha : a1 = a2) :
    (calculateScore t1 a1).score = (calculateScore t2 a2).score
    ∧ (calculateScore t1 a1).correctCount = (calculateScore t2 a2).correctCount
    ∧ (calculateScore t1 a1).errorCount = (calculateScore t2 a2).errorCount
    ∧ ∀ i : Nat, (calculateScore t1 a1).gradedAnswers[i]? =
        (calculateScore t2 a2).gradedAnswers[i]? := by
  subst ht; subst ha
  exact ⟨rfl, rfl, rfl, fun i => rfl⟩

/-- Witness for C3 at the fixture exam (two syntactically equal runs). -/
theorem calculateScore_deterministic_witness :
    (calculateScore (some examTest) examAnswers).score =
      (calculateScore (some examTest) examAnswers).score
    ∧ (calculateScore (some examTest) examAnswers).gradedAnswers[0]? =
        (calculateScore (some examTest) examAnswers).gradedAnswers[0]? :=
  ⟨(calculateScore_deterministic (some examTest) (some examTest)
      examAnswers examAnswers rfl rfl).1,
   (calculateScore_deterministic (some examTest) (some examTest)
      examAnswers examAnswers rfl rfl).2.2.2 0⟩

/-- Claim C6: `calculateScore` is a bounded single pass: it produces
exactly one graded answer per question, the `j`-th graded answer being
the grading of the `j`-th question alone (the per-question work touches
only that question's own option list); as a total structurally recursive
function it terminates on every finite question list. -/
theorem calculateScore_single_pass (t : Test) (answers : AnswersMap)
    (qs : List Question) (hq : t.questions = some qs) :
    (calculateScore (some t) answers).gradedAnswers.length = qs.length
    ∧ ∀ j : Nat, (calculateScore (some t) answers).gradedAnswers[j]? =
        (qs[j]?).map (fun q => gradeQuestion answers j q) := by
  rw [calculateScore_eq t answers qs hq]
  exact ⟨gradeList_length answers qs 0,
    fun j => by simpa using gradeList_getElem? answers qs 0 j⟩

/-- Witness for C6 at the fixture exam. -/
theorem calculateScore_single_pass_witness :
    (calculateScore (some examTest) examAnswers).gradedAnswers.length =
      ([qOne, qTwo] : List Question).length
    ∧ (calculateScore (some examTest) examAnswers).gradedAnswers[1]? =
        ((([qOne, qTwo] : List Question))[1]?).map
          (fun q => gradeQuestion examAnswers 1 q) :=
  ⟨(calculateScore_single_pass examTest examAnswers [qOne, qTwo] rfl).1,
   (calculateScore_single_pass examTest examAnswers [qOne, qTwo] rfl).2 1⟩

/-- Claim C7: `handleSelectOption(questionId, optionId)` records exactly
`optionId` for `questionId` (overwriting any previous selection) and
leaves every other question's recorded answer unchanged. -/
theorem handleSelectOption_spec (prev : AnswersMap) (qid oid : String) :
    handleSelectOption prev qid oid qid = some oid
    ∧ ∀ k, k ≠ qid → handleSelectOption prev qid oid k = prev k := by
  refine ⟨by simp [handleSelectOption], fun k hk => ?_⟩
  simp [handleSelectOption, hk]

/-- Witness for C7: overwriting the previous selection of `q1` does not
touch the recorded answer of `q2`. -/
theorem handleSelectOption_spec_witness :
    handleSelectOption examAnswers "q1" "oA2" "q1" = some "oA2"
    ∧ handleSelectOption examAnswers "q1" "oA2" "q2" = examAnswers "q2" :=
  ⟨(handleSelectOption_spec examAnswers "q1" "oA2").1,
   (handleSelectOption_spec examAnswers "q1" "oA2").2 "q2" (by decide)⟩

/-- Claim C9: an unanswered question is never counted as correct: a
graded answer whose question id has no entry in the answers map has
`isCorrect = false`, `selectedOptionId = null` and `selectedOption = '-'`. -/
theorem calculateScore_unanswered (t : Test) (answers : AnswersMap)
    (qs : List Question) (hq : t.questions = some qs) :
    ∀ ga ∈ (calculateScore (some t) answers).gradedAnswers,
      answers ga.questionId = none →
        ga.isCorrect = false ∧ ga.selectedOptionId = none ∧
          ga.selectedOption = "-" := by
  rw [calculateScore_eq t answers qs hq]
  intro ga hga hnone
  obtain ⟨q, _, j, rfl⟩ := mem_gradeList answers qs 0 ga hga
  have hid : answers q.id = none := hnone
  have hfind : q.question_options.find? (fun _ => false) = none :=
    List.find?_eq_none.mpr (by simp)
  refine ⟨?_, ?_, ?_⟩ <;>
    simp [gradeQuestion, hid, jsOrNull, jsOrDefault, hfind]

/-- Witness for C9 at the fixture exam: question 2 is unanswered; its
graded entry is marked incorrect with null selection and `'-'`. -/
theorem calculateScore_unanswered_witness :
    (gradeQuestion examAnswers 1 qTwo).isCorrect = false ∧
      (gradeQuestion examAnswers 1 qTwo).selectedOptionId = none ∧
      (gradeQuestion examAnswers 1 qTwo).selectedOption = "-" :=
  calculateScore_unanswered examTest examAnswers [qOne, qTwo] rfl
    (gradeQuestion examAnswers 1 qTwo)
    (by decide)
    (by decide)

/-! ## Claims about the student dashboard -/

lemma mem_activeTests_iff (now : Int) (results : List TestResultRow)
    (releases : List TestRelease) (r : TestRelease) (hr : r ∈ releases) :
    r ∈ activeTests now results releases ↔
      getTestStatus now results r = .active := by
  simp [activeTests, List.mem_filter, hr]

lemma mem_upcomingTests_iff (now : Int) (results : List TestResultRow)
    (releases : List TestRelease) (r : TestRelease) (hr : r ∈ releases) :
    r ∈ upcomingTests now results releases ↔
      getTestStatus now results r = .upcoming := by
  simp [upcomingTests, List.mem_insertionSort, List.mem_filter, hr]

lemma mem_completedTests_iff (now : Int) (results : List TestResultRow)
    (releases : List TestRelease) (r : TestRelease) (hr : r ∈ releases) :
    r ∈ completedTests now results releases ↔
      getTestStatus now results r = .completed := by
  simp [completedTests, List.mem_filter, hr]

lemma mem_expiredTests_iff (now : Int) (results : List TestResultRow)
    (releases : List TestRelease) (r : TestRelease) (hr : r ∈ releases) :
    r ∈ expiredTests now results releases ↔
      getTestStatus now results r = .expired := by
  simp [expiredTests, List.mem_filter, hr]

/-- Claim C10: the completed check takes precedence in `getTestStatus`:
a release with a matching fetched result is `completed` regardless of
the current time; otherwise the status is `upcoming` when
`now < start_time`, `expired` when `now > end_time`, and `active`
otherwise. -/
theorem getTestStatus_spec (now : Int) (results : List TestResultRow)
    (r : TestRelease) :
    ((∃ res ∈ results, res.test_release_id = r.id) →
        getTestStatus now results r = .completed)
    ∧ ((¬ ∃ res ∈ results, res.test_release_id = r.id) →
        ((now < r.start_time → getTestStatus now results r = .upcoming)
        ∧ (¬ now < r.start_time → now > r.end_time →
            getTestStatus now results r = .expired)
        ∧ (¬ now < r.start_time → ¬ now > r.end_time →
            getTestStatus now results r = .active))) := by
  have hany : (results.any (fun res => res.test_release_id == r.id)) = true ↔
      ∃ res ∈ results, res.test_release_id = r.id := by
    simp [List.any_eq_true]
  constructor
  · intro h
    simp [getTestStatus, hany.mpr h]
  · intro h
    have hfalse : (results.any (fun res => res.test_release_id == r.id)) = false := by
      rcases Bool.eq_false_or_eq_true
        (results.any (fun res => res.test_release_id == r.id)) with hb | hb
      · exact absurd (hany.mp hb) h
      · exact hb
    refine ⟨fun h1 => ?_, fun h1 h2 => ?_, fun h1 h2 => ?_⟩
    · simp [getTestStatus, hfalse, h1]
    · simp [getTestStatus, hfalse, h1, h2]
    · simp [getTestStatus, hfalse, h1, h2]

/-- Fixture release for the dashboard claims: the window is already over. -/
def relExpired : TestRelease := { id := "r1", start_time := 0, end_time := 10 }

/-- Fixture result matching `relExpired`. -/
def resR1 : TestResultRow := { test_release_id := "r1" }

/-- Witness for C10: a release whose window is long over is still
`completed` once a matching result exists. -/
theorem getTestStatus_spec_witness :
    getTestStatus 100 [resR1] relExpired = .completed :=
  (getTestStatus_spec 100 [resR1] relExpired).1 ⟨resR1, by decide, rfl⟩

/-- Counterexample to claim C4 as stated: with no matching result and the
current time past `end_time`, a fetched release has status `expired` and
is listed under none of `upcoming`, `active`, `completed`. -/
theorem dashboard_three_buckets_cex :
    relExpired ∈ [relExpired]
    ∧ getTestStatus 100 [] relExpired = .expired
    ∧ relExpired ∉ activeTests 100 [] [relExpired]
    ∧ relExpired ∉ upcomingTests 100 [] [relExpired]
    ∧ relExpired ∉ completedTests 100 [] [relExpired] := by
  refine ⟨by decide, by decide, ?_, ?_, ?_⟩ <;> decide

/-- Claim C4 (amended): every fetched release is listed under exactly one
of the four statuses `upcoming`, `active`, `completed`, `expired`, as
determined by `getTestStatus` from the current time, the release's
start/end times, and whether a result with matching `test_release_id`
exists. -/
theorem dashboard_exactly_one_bucket (now : Int) (results : List TestResultRow)
    (releases : List TestRelease) (r : TestRelease) (hr : r ∈ releases) :
    (r ∈ activeTests now results releases
      ∧ r ∉ upcomingTests now results releases
      ∧ r ∉ completedTests now results releases
      ∧ r ∉ expiredTests now results releases)
    ∨ (r ∉ activeTests now results releases
      ∧ r ∈ upcomingTests now results releases
      ∧ r ∉ completedTests now results releases
      ∧ r ∉ expiredTests now results releases)
    ∨ (r ∉ activeTests now results releases
      ∧ r ∉ upcomingTests now results releases
      ∧ r ∈ completedTests now results releases
      ∧ r ∉ expiredTests now results releases)
    ∨ (r ∉ activeTests now results releases
      ∧ r ∉ upcomingTests now results releases
      ∧ r ∉ completedTests now results releases
      ∧ r ∈ expiredTests now results releases) := by
  have ha := mem_activeTests_iff now results releases r hr
  have hu := mem_upcomingTests_iff now results releases r hr
  have hc := mem_completedTests_iff now results releases r hr
  have he := mem_expiredTests_iff now results releases r hr
  cases hst : getTestStatus now results r
  · exact Or.inr (Or.inr (Or.inl
      ⟨by simp [ha, hst], by simp [hu, hst], hc.mpr hst, by simp [he, hst]⟩))
  · exact Or.inr (Or.inl
      ⟨by simp [ha, hst], hu.mpr hst, by simp [hc, hst], by simp [he, hst]⟩)
  · exact Or.inr (Or.inr (Or.inr
      ⟨by simp [ha, hst], by simp [hu, hst], by simp [hc, hst], he.mpr hst⟩))
  · exact Or.inl
      ⟨ha.mpr hst, by simp [hu, hst], by simp [hc, hst], by simp [he, hst]⟩

/-- Witness for the amended C4: the expired fixture release falls in
exactly the `expired` bucket. -/
theorem dashboard_exactly_one_bucket_witness :
    (relExpired ∈ activeTests 100 [] [relExpired]
      ∧ relExpired ∉ upcomingTests 100 [] [relExpired]
      ∧ relExpired ∉ completedTests 100 [] [relExpired]
      ∧ relExpired ∉ expiredTests 100 [] [relExpired])
    ∨ (relExpired ∉ activeTests 100 [] [relExpired]
      ∧ relExpired ∈ upcomingTests 100 [] [relExpired]
      ∧ relExpired ∉ completedTests 100 [] [relExpired]
      ∧ relExpired ∉ expiredTests 100 [] [relExpired])
    ∨ (relExpired ∉ activeTests 100 [] [relExpired]
      ∧ relExpired ∉ upcomingTests 100 [] [relExpired]
      ∧ relExpired ∈ completedTests 100 [] [relExpired]
      ∧ relExpired ∉ expiredTests 100 [] [relExpired])
    ∨ (relExpired ∉ activeTests 100 [] [relExpired]
      ∧ relExpired ∉ upcomingTests 100 [] [relExpired]
      ∧ relExpired ∉ completedTests 100 [] [relExpired]
      ∧ relExpired ∈ expiredTests 100 [] [relExpired]) :=
  dashboard_exactly_one_bucket 100 [] [relExpired] relExpired (by decide)

/-! ## Claims about `handleLoginSuccess` and `initExam` -/

lemma pollCallsFrom_le (get : Nat → Except Unit (Option String)) :
    ∀ r i, pollCallsFrom get i r ≤ r := by
  intro r
  induction r with
  | zero => intro i; exact Nat.le_refl 0
  | succ r ih =>
    intro i
    have hr := ih (i + 1)
    cases hg : get i with
    | error e => simp [pollCallsFrom, hg]
    | ok v =>
      cases v with
      | none => simp [pollCallsFrom, hg]; omega
      | some u => simp [pollCallsFrom, hg]

/-- Claim C5: `handleLoginSuccess` polls `getSession` at most 3 times,
races the role fetch against the 5000 ms timeout (a fetch slower than
5000 ms leaves the role unchanged when the sequence ends), and every
terminating path — session obtained, session absent after the polls, an
awaited call rejecting, or no client configured — ends with
`authLoading = false` and the login-processing guard cleared. -/
theorem handleLoginSuccess_spec (env : AuthEnv) (s : AuthState)
    (h : s.loginProcessing = false) :
    (handleLoginSuccess env s).authLoading = false
    ∧ (handleLoginSuccess env s).loginProcessing = false
    ∧ pollCallsFrom env.getSession 0 3 ≤ 3
    ∧ (5000 < env.roleFetchMillis →
        (handleLoginSuccess env s).userRole = s.userRole) := by
  have hmain : (handleLoginSuccess env s).authLoading = false
      ∧ (handleLoginSuccess env s).loginProcessing = false
      ∧ (5000 < env.roleFetchMillis →
          (handleLoginSuccess env s).userRole = s.userRole) := by
    unfold handleLoginSuccess
    simp only [h, Bool.false_eq_true, if_false]
    cases hc : env.hasClient
    · simp
    · simp only [if_true]
      cases hp : pollFrom env.getSession 0 3 with
      | error e => exact ⟨rfl, rfl, fun _ => rfl⟩
      | ok v =>
        cases v with
        | none => exact ⟨rfl, rfl, fun _ => rfl⟩
        | some u =>
          refine ⟨rfl, rfl, fun h5 => ?_⟩
          show (raceFetchRole env u _).userRole = s.userRole
          rw [raceFetchRole, if_neg (by omega)]
  exact ⟨hmain.1, hmain.2.1, pollCallsFrom_le env.getSession 3 0, hmain.2.2⟩

/-- Fixture environment for C5: the first poll throws nothing and finds
no session, the second finds user `u7`; the role fetch would resolve
`Student` but takes longer than the 5000 ms timeout. -/
def envW : AuthEnv :=
  { hasClient := true
    getSession := fun i => if i = 0 then .ok none else .ok (some "u7")
    fetchRoleResult := fun _ => some "Student"
    roleFetchMillis := 6000 }

/-- Fixture pre-login state for C5. -/
def stateW : AuthState :=
  { session := none, userRole := "Student", authLoading := true,
    loadingMessage := "Inicializando Sistema...", loginProcessing := false }

/-- Witness for C5 at the fixture environment. -/
theorem handleLoginSuccess_spec_witness :
    (handleLoginSuccess envW stateW).authLoading = false
    ∧ (handleLoginSuccess envW stateW).loginProcessing = false
    ∧ pollCallsFrom envW.getSession 0 3 ≤ 3
    ∧ (5000 < envW.roleFetchMillis →
        (handleLoginSuccess envW stateW).userRole = stateW.userRole) :=
  handleLoginSuccess_spec envW stateW rfl

/-- First fixture `test_questions` row for C8: `order_index = 2`. -/
def rowA : TestQuestionRow :=
  { weight := 1, order_index := 2,
    questions := { id := "qA", content := "A", difficulty := "", image_url := "",
                   deleted := false, question_options := [] } }

/-- Second fixture `test_questions` row for C8: `order_index = 1`, so by
`order_index` it should come before `rowA`. -/
def rowB : TestQuestionRow :=
  { weight := 1, order_index := 1,
    questions := { id := "qB", content := "B", difficulty := "", image_url := "",
                   deleted := false, question_options := [] } }

/-- Third fixture row for C8: a deleted question. -/
def rowDel : TestQuestionRow :=
  { weight := 1, order_index := 0,
    questions := { id := "qD", content := "D", difficulty := "", image_url := "",
                   deleted := true, question_options := [] } }

/-- Claim C8 at the failing input: `initExam` does drop the deleted
question, but it does NOT sort by `order_index`: although `rowB` has the
smaller `order_index`, the output keeps the fetched order
`["qA", "qB"]` (the spread drops `order_index`, so the comparator
computes `undefined - undefined = NaN`, which sorts as `0`). -/
theorem initExamQuestions_at_failing_input :
    (initExamQuestions [rowA, rowB, rowDel]).map (fun q => q.id) = ["qA", "qB"]
    ∧ rowB.order_index < rowA.order_index
    ∧ (initExamQuestions [rowA, rowB, rowDel]).all (fun q => !q.deleted) = true := by
  refine ⟨by decide, by decide, by decide⟩
